import Mathlib

/-!
Verification of the canvas history / coordinate-mapping / generation-bridge
logic of `src/Home.tsx` (Gemini Co-drawing).

The component state of `Home` is embedded shallowly: React `useState` values
become fields of `AppState`, each handler becomes a pure state transformer.
Raster contents are symbolic: every drawing operation of the app first fills
the canvas with opaque white and then draws, so a raster is described by the
last full-content drawing operation that produced it (`Raster`).  Canvas
snapshots are `canvas.toDataURL()` strings — the canonical lossless PNG
encoding of the raster — so snapshots are identified with the raster contents
they encode, and snapshotting/restoring are the identity on this
representation.  JS numbers used in coordinate arithmetic are modelled by `ℚ`
extended with `Option` (`none` stands for `undefined`/`NaN`, both falsy, both
absorbing under arithmetic), and JS string truthiness is `≠ ""`.
-/

set_option autoImplicit false

namespace CoDrawing

/-- Symbolic raster contents.  Every constructor corresponds to one of the
app's full-canvas drawing sequences, each of which begins with an opaque white
`fillRect` over the whole 960×540 canvas:
* `blankWhite` — the initial fill (init effect, `clearCanvas`);
* `generated img` — white fill then the generated image `img` (a data URL)
  drawn over the full canvas (`drawImageToCanvas`);
* `importedImg img cx cy dw dh` — white fill then the imported image drawn at
  destination rect `(cx, cy, dw, dh)` (`handleImageImport`);
* `afterStroke base x y color` — the raster `base` with one stroke segment to
  `(x, y)` in `color` drawn on top (`draw`). -/
inductive Raster where
  | blankWhite : Raster
  | generated (img : String) : Raster
  | importedImg (img : String) (cx cy dw dh : ℚ) : Raster
  | afterStroke (base : Raster) (x y : ℚ) (color : String) : Raster
deriving Repr, DecidableEq

/-- State of `useState<{stack: string[]; index: number}>` in `Home`: the
undo/redo history, a stack of snapshots and the current position.  The
`index` is a JS number that ranges over `-1` (pre-initialization) and valid
positions, so it is embedded as `Int`. -/
structure HistoryState where
  stack : List Raster
  index : Int
deriving Repr, DecidableEq

/-- Fields for the `useState`/`useRef` values of the `Home` component that the
verified handlers read or write. -/
structure AppState where
  canvas : Raster
  backgroundImage : Option String
  isDrawing : Bool
  penColor : String
  prompt : String
  generatedImage : Option String
  isLoading : Bool
  showErrorModal : Bool
  errorMessage : String
  apiKey : String
  showApiKeyModal : Bool
  historyState : HistoryState
deriving Repr, DecidableEq

/-- State after the initialization effect: fill the canvas white and save the
initial snapshot (`setHistoryState({stack: [dataUrl], index: 0})`).  The
component mounts with empty prompt, no API key and no generated image. -/
def initState : AppState :=
  { canvas := .blankWhite
    backgroundImage := none
    isDrawing := false
    penColor := "#000000"
    prompt := ""
    generatedImage := none
    isLoading := false
    showErrorModal := false
    errorMessage := ""
    apiKey := ""
    showApiKeyModal := false
    historyState := ⟨[.blankWhite], 0⟩ }

/-- Source `saveCanvasState`: snapshot the current canvas and commit it —
`newStack = prev.stack.slice(0, prev.index + 1); newStack.push(dataUrl)`,
then `index = newStack.length - 1`.  `Array.slice(0, n)` clamps a negative
bound to `0`, hence `Int.toNat`.  (The `!canvasRef.current` early return is
dropped: the canvas ref is set for the component's whole lifetime.) -/
def saveCanvasState (s : AppState) : AppState :=
  let dataUrl := s.canvas
  let newStack := s.historyState.stack.take (s.historyState.index + 1).toNat ++ [dataUrl]
  { s with historyState := ⟨newStack, (newStack.length : Int) - 1⟩ }

/-- Source `restoreCanvasState(dataUrl)`: decode the snapshot and redraw the
full canvas from it.  The argument is the result of a JS array index, so it
may be `undefined` (`none`); the function returns early on a missing/empty
`dataUrl` and otherwise replaces the whole raster content. -/
def restoreCanvasState (s : AppState) (dataUrl : Option Raster) : AppState :=
  match dataUrl with
  | none => s
  | some r => { s with canvas := r }

/-- Source `handleUndo`: no-op when `index <= 0`, otherwise restore
`stack[index - 1]` and decrement the index. -/
def handleUndo (s : AppState) : AppState :=
  if s.historyState.index ≤ 0 then s
  else
    let newIndex := s.historyState.index - 1
    let s1 := restoreCanvasState s (s.historyState.stack.get? newIndex.toNat)
    { s1 with historyState := ⟨s.historyState.stack, newIndex⟩ }

/-- Source `handleRedo`: no-op when `index >= stack.length - 1`, otherwise
restore `stack[index + 1]` and increment the index. -/
def handleRedo (s : AppState) : AppState :=
  if s.historyState.index ≥ (s.historyState.stack.length : Int) - 1 then s
  else
    let newIndex := s.historyState.index + 1
    let s1 := restoreCanvasState s (s.historyState.stack.get? newIndex.toNat)
    { s1 with historyState := ⟨s.historyState.stack, newIndex⟩ }

/-- Source `clearCanvas`: fill the canvas white, commit a snapshot, and drop
the generated-image state and the background image reference. -/
def clearCanvas (s : AppState) : AppState :=
  let s1 := { s with canvas := Raster.blankWhite }
  let s2 := saveCanvasState s1
  { s2 with generatedImage := none, backgroundImage := none }

/-- Source `stopDrawing`: at stroke end (mouse up / leave, touch end), clear
the `isDrawing` flag and commit a snapshot; no-op when no stroke is in
progress. -/
def stopDrawing (s : AppState) : AppState :=
  if s.isDrawing then saveCanvasState { s with isDrawing := false } else s

/-- History invariant of spec §3: the stack is non-empty and the index is a
valid position. -/
def Invariant (h : HistoryState) : Prop :=
  h.stack ≠ [] ∧ 0 ≤ h.index ∧ h.index < (h.stack.length : Int)

instance (h : HistoryState) : Decidable (Invariant h) := by
  unfold Invariant; infer_instance

/-! ### Coordinate mapping (`getCoordinates`)

JS numbers that may be `undefined` or `NaN` are modelled as `Option ℚ` with
`none` for both (`undefined` and `NaN` are both falsy and both are absorbed
into `NaN` by arithmetic). -/

/-- Semantics of the JS expression `a || b`: return `a` when it is truthy;
the numbers `0`, `NaN` and `undefined` are falsy. -/
def jsOr (a b : Option ℚ) : Option ℚ :=
  match a with
  | some x => if x = 0 then b else some x
  | none => b

/-- Semantics of JS subtraction with a possibly-`undefined` left operand:
`undefined - b` and `NaN - b` are `NaN`. -/
def jsSub (a : Option ℚ) (b : ℚ) : Option ℚ := a.map (fun x => x - b)

/-- Semantics of JS multiplication with a possibly-`NaN` left operand. -/
def jsMul (a : Option ℚ) (b : ℚ) : Option ℚ := a.map (fun x => x * b)

/-- Input event as read by `getCoordinates`: a mouse event carries
`nativeEvent.offsetX/offsetY` (and no `touches`), a touch event carries
`touches[0].clientX/clientY` (and no `offsetX/offsetY`). -/
structure DrawEvent where
  offsetX : Option ℚ
  offsetY : Option ℚ
  touchClientX : Option ℚ
  touchClientY : Option ℚ
deriving Repr, DecidableEq

/-- Source `getCoordinates`: with internal canvas size `(W, H)` and displayed
size `(w, h)` (from `getBoundingClientRect`, whose origin is
`(left, top)`), compute
`((offsetX || touches?.[0]?.clientX - left) * (W / w),
  (offsetY || touches?.[0]?.clientY - top) * (H / h))`. -/
def getCoordinates (e : DrawEvent) (W H w h left top : ℚ) : Option ℚ × Option ℚ :=
  let scaleX := W / w
  let scaleY := H / h
  (jsMul (jsOr e.offsetX (jsSub e.touchClientX left)) scaleX,
   jsMul (jsOr e.offsetY (jsSub e.touchClientY top)) scaleY)

/-! ### Image import (`handleImageImport`) -/

/-- Placement computed by `handleImageImport` for an image of size
`(Iw, Ih)` on a canvas of size `(Cw, Ch)`: the scale
`ratio = min(Cw / Iw, Ch / Ih)` and the centering offsets
`((Cw - Iw * ratio) / 2, (Ch - Ih * ratio) / 2)`. -/
def importPlacement (Cw Ch Iw Ih : ℚ) : ℚ × ℚ × ℚ :=
  let hRatio := Cw / Iw
  let vRatio := Ch / Ih
  let ratio := min hRatio vRatio
  let centerShiftX := (Cw - Iw * ratio) / 2
  let centerShiftY := (Ch - Ih * ratio) / 2
  (ratio, centerShiftX, centerShiftY)

/-- Source `handleImageImport` (image `onload` branch): clear to white, draw
the imported image fit-and-centered on the 960×540 canvas, commit a snapshot,
and reset the generated-image state. -/
def handleImageImport (s : AppState) (imgSrc : String) (iw ih : ℚ) : AppState :=
  let p := importPlacement 960 540 iw ih
  let s1 := { s with canvas := Raster.importedImg imgSrc p.2.1 p.2.2 (iw * p.1) (ih * p.1) }
  let s2 := saveCanvasState s1
  { s2 with generatedImage := none, backgroundImage := none }

/-! ### Generation bridge (`handleSubmit` and the `generatedImage` effect) -/

/-- Truthiness of a JS string value that may be `undefined`/`null` (`none`):
only a present, non-empty string is truthy. -/
def isTruthyStr : Option String → Bool
  | none => false
  | some s => s != ""

/-- One part of a Gemini request/response content: `{text?, inlineData?}`.
`text` is an optional string; `inlineData` is an optional OBJECT whose `data`
field holds the base64 image data (its mime type is always `image/png` here),
so `some d` models a present `inlineData` object with `data = d` — where `d`
may itself be the empty string — and `none` models an absent field. -/
structure Part where
  text : Option String
  inlineData : Option String
deriving Repr, DecidableEq

/-- One entry of a Gemini `contents` array: `{role, parts}`. -/
structure Content where
  role : String
  parts : List Part
deriving Repr, DecidableEq

/-- Accumulator of the response loop in `handleSubmit`:
`data = {message: '', imageData: null}` (the constant `success: true` and the
never-assigned `error` field are dropped). -/
structure GenData where
  message : String
  imageData : Option String
deriving Repr, DecidableEq

/-- Body of the response loop: `if (part.text) data.message = part.text;
else if (part.inlineData) data.imageData = part.inlineData.data`.  The first
guard is string truthiness (a present empty `text` is falsy); the second
tests PRESENCE of the `inlineData` object, and the assignment stores its
`data` string unconditionally — an empty `data` string included. -/
def processPart (d : GenData) (p : Part) : GenData :=
  if isTruthyStr p.text then { d with message := p.text.getD "" }
  else if p.inlineData.isSome then { d with imageData := p.inlineData }
  else d

/-- Response loop of `handleSubmit` over `response.candidates[0].content.parts`. -/
def processParts (parts : List Part) : GenData :=
  parts.foldl processPart { message := "", imageData := none }

/-- Characterization used in the statements below: the `data` of the last
part that the loop treats as an image (`text` falsy, `inlineData` object
present — its `data` possibly empty), starting from accumulator `acc`. -/
def lastImg : List Part → Option String → Option String
  | [], acc => acc
  | p :: ps, acc =>
      lastImg ps
        (if isTruthyStr p.text then acc
         else if p.inlineData.isSome then p.inlineData else acc)

/-- Specification-side selector (spec §4.2 `applyResult`): the *first* image
part of the response (first part carrying an `inlineData` object that the
loop would treat as an image).  Stated only to compare with what the code
computes. -/
def specFirstImage : List Part → Option String
  | [] => none
  | p :: ps =>
      if p.inlineData.isSome && !(isTruthyStr p.text) then p.inlineData
      else specFirstImage ps

/-- Outcome of the awaited external call in `handleSubmit`: either a response
with its parts, or a thrown failure (network error, rejected promise, or a
TypeError from a malformed response shape) carrying `error.message`. -/
inductive GenResult where
  | ok (parts : List Part)
  | err (message : String)
deriving Repr, DecidableEq

/-- Resumption of `handleSubmit` after the external call: on success run the
response loop and, when image data was received, set
`generatedImage = "data:image/png;base64," + imageData` (otherwise only an
`alert` fires); on a thrown failure set the error message and show the error
modal.  The `finally` block clears `isLoading` on every path. -/
def handleSubmitResponse (s : AppState) (r : GenResult) : AppState :=
  match r with
  | .ok parts =>
      let d := processParts parts
      if isTruthyStr d.imageData then
        { s with
            generatedImage := some ("data:image/png;base64," ++ d.imageData.getD "")
            isLoading := false }
      else { s with isLoading := false }
  | .err m =>
      { s with errorMessage := m, showErrorModal := true, isLoading := false }

/-- Source `drawImageToCanvas`: white fill, then draw the held background
image stretched over the full canvas; early return when no background image
is held. -/
def drawImageToCanvas (s : AppState) : AppState :=
  match s.backgroundImage with
  | none => s
  | some img => { s with canvas := Raster.generated img }

/-- Effect on `[generatedImage]`: when `generatedImage` is truthy, store it in
`backgroundImageRef`, redraw the canvas from it, and commit a snapshot. -/
def generatedImageEffect (s : AppState) : AppState :=
  match s.generatedImage with
  | none => s
  | some url =>
      if url = "" then s
      else saveCanvasState (drawImageToCanvas { s with backgroundImage := some url })

/-- Entry gate of `handleSubmit`: with no API key configured
(`if (!apiKey)`), show the key modal and stop — the external call is not
reached.  Otherwise set the busy flag and proceed.  The returned `Bool`
records whether the external call is reached. -/
def handleSubmitGate (s : AppState) : AppState × Bool :=
  if s.apiKey = "" then ({ s with showApiKeyModal := true }, false)
  else ({ s with isLoading := true }, true)

/-- Modelled from the spec (§6 image encode collaborator): the platform
encoder behind `canvas.toDataURL('image/png')` serializes the raster
losslessly as PNG and renders it in base64.  Base64 text never contains a
comma, and every PNG file begins with the fixed 8-byte signature, whose
base64 rendering begins with `iVBORw0KGgo` — so the payload is never empty.
The pixel data after the signature is opaque to this development and is
modelled by a comma-free tag per drawing operation. -/
def base64Payload : Raster → String
  | .blankWhite => "iVBORw0KGgoAAWhite"
  | .generated _ => "iVBORw0KGgoABBackground"
  | .importedImg _ _ _ _ _ => "iVBORw0KGgoACImport"
  | .afterStroke _ _ _ _ => "iVBORw0KGgoADStroke"

/-- Result of `tempCanvas.toDataURL('image/png')` in `handleSubmit`:
`"data:image/png;base64," ++ payload`. -/
def toDataUrl (r : Raster) : String := "data:image/png;base64," ++ base64Payload r

/-- Value of `drawingData = tempCanvas.toDataURL('image/png').split(',')[1]`:
the data-URL prefix `data:image/png;base64,` ends with the only comma of the
string (base64 text is comma-free), so the split yields exactly the base64
payload. -/
def drawingDataOf (r : Raster) : String := base64Payload r

/-- Compositing step of `handleSubmit`: the temporary canvas is filled with
opaque white and the drawing canvas is drawn on top.  Every raster this app
produces already begins with an opaque white fill (see `Raster`), so the
composite has the same content. -/
def compositeOverWhite (r : Raster) : Raster := r

/-- Serialized drawing sent by `handleSubmit` for the current canvas. -/
def submitDrawingData (s : AppState) : String :=
  drawingDataOf (compositeOverWhite s.canvas)

/-- Request contents built by `handleSubmit`: by default a single text-only
content with the prompt; when `drawingData` is truthy (a non-empty string),
replaced by an image content followed by the prompt suffixed with the
style-preservation hint. -/
def buildContents (prompt drawingData : String) : List Content :=
  let base : List Content := [⟨"USER", [⟨some prompt, none⟩]⟩]
  if drawingData != "" then
    [⟨"USER", [⟨none, some drawingData⟩]⟩,
     ⟨"USER", [⟨some (prompt ++ ". Keep the same minimal line drawing style."), none⟩]⟩]
  else base

/-- Test for any image part in a contents list. -/
def hasImagePart (cs : List Content) : Bool :=
  cs.any fun c => c.parts.any fun p => isTruthyStr p.inlineData

/-! ### Error classification (`ErrorDisplay`) -/

/-- Occurrence of `pat` as a contiguous run inside a character list. -/
def occursIn (pat : List Char) : List Char → Bool
  | [] => pat.isEmpty
  | c :: cs => pat.isPrefixOf (c :: cs) || occursIn pat cs

/-- Case-insensitive substring test, the semantics of the `/.../i` regex
tests in `ErrorDisplay` (the patterns below are already lowercase). -/
def containsCI (s pat : String) : Bool :=
  occursIn pat.toList (s.toList.map Char.toLower)

/-- Source `isQuotaError = /quota/i.test(message)`. -/
def isQuotaError (m : String) : Bool := containsCI m "quota"

/-- Source `isApiKeyError = /API key not valid/i.test(message)`. -/
def isApiKeyError (m : String) : Bool := containsCI m "api key not valid"

/-- Source `isHostError = /origin is not allowed/i.test(message)`. -/
def isHostError (m : String) : Bool := containsCI m "origin is not allowed"

/-- Error taxonomy of spec §7. -/
inductive ErrorKind where
  | quotaOrPermission
  | invalidCredential
  | transientOrUnknown
deriving Repr, DecidableEq

/-- Classification derived by `ErrorDisplay` from the stored error message:
the quota/host help block corresponds to `QuotaOrPermission`, the invalid-key
block to `InvalidCredential`, anything else to `TransientOrUnknown`. -/
def classifyError (m : String) : ErrorKind :=
  if isQuotaError m || isHostError m then .quotaOrPermission
  else if isApiKeyError m then .invalidCredential
  else .transientOrUnknown

/-! ### Sample states used by the witnesses -/

/-- Three-snapshot history positioned at the head, as after two committed
strokes. -/
def sampleState : AppState :=
  { initState with
      canvas := .afterStroke (.afterStroke .blankWhite 1 1 "#000000") 2 2 "#000000"
      historyState :=
        ⟨[.blankWhite,
          .afterStroke .blankWhite 1 1 "#000000",
          .afterStroke (.afterStroke .blankWhite 1 1 "#000000") 2 2 "#000000"], 2⟩ }

/-- Two-snapshot history positioned behind the head (after one undo). -/
def sampleStateMid : AppState :=
  { initState with
      canvas := .blankWhite
      historyState := ⟨[.blankWhite, .afterStroke .blankWhite 1 1 "#000000"], 0⟩ }

/-! ### Helper lemmas on the history operations -/

theorem handleUndo_stack (s : AppState) :
    (handleUndo s).historyState.stack = s.historyState.stack := by
  unfold handleUndo
  split <;> rfl

theorem handleRedo_stack (s : AppState) :
    (handleRedo s).historyState.stack = s.historyState.stack := by
  unfold handleRedo
  split <;> rfl

theorem handleUndo_historyState (s : AppState) (h : 0 < s.historyState.index) :
    (handleUndo s).historyState
      = ⟨s.historyState.stack, s.historyState.index - 1⟩ := by
  unfold handleUndo
  rw [if_neg (by omega)]

theorem handleRedo_historyState (s : AppState)
    (h : s.historyState.index < (s.historyState.stack.length : Int) - 1) :
    (handleRedo s).historyState
      = ⟨s.historyState.stack, s.historyState.index + 1⟩ := by
  unfold handleRedo
  rw [if_neg (by omega)]

theorem handleUndo_canvas (s : AppState) (hpos : 0 < s.historyState.index)
    (hlt : s.historyState.index < (s.historyState.stack.length : Int)) :
    s.historyState.stack.get? (s.historyState.index - 1).toNat
      = some ((handleUndo s).canvas) := by
  unfold handleUndo restoreCanvasState
  rw [if_neg (by omega)]
  have hn : (s.historyState.index - 1).toNat < s.historyState.stack.length := by omega
  dsimp only
  rw [List.get?_eq_get hn]

theorem handleRedo_canvas (s : AppState) (h0 : 0 ≤ s.historyState.index)
    (hlt : s.historyState.index < (s.historyState.stack.length : Int) - 1) :
    s.historyState.stack.get? (s.historyState.index + 1).toNat
      = some ((handleRedo s).canvas) := by
  unfold handleRedo restoreCanvasState
  rw [if_neg (by omega)]
  have hn : (s.historyState.index + 1).toNat < s.historyState.stack.length := by omega
  dsimp only
  rw [List.get?_eq_get hn]

theorem handleUndo_iter (s : AppState) (k : Nat)
    (hk : (k : Int) ≤ s.historyState.index)
    (hlt : s.historyState.index < (s.historyState.stack.length : Int)) :
    (handleUndo^[k] s).historyState.stack = s.historyState.stack ∧
    (handleUndo^[k] s).historyState.index = s.historyState.index - k := by
  induction k with
  | zero => simp
  | succ n ih =>
      have hn : (n : Int) ≤ s.historyState.index := by
        push_cast at hk ⊢; omega
      obtain ⟨h1, h2⟩ := ih hn
      have hpos : 0 < (handleUndo^[n] s).historyState.index := by
        rw [h2]; push_cast at hk ⊢; omega
      rw [Function.iterate_succ_apply']
      have h3 := handleUndo_historyState (handleUndo^[n] s) hpos
      rw [h3]
      refine ⟨h1, ?_⟩
      rw [h2]
      push_cast
      omega

/-! ### Claims -/

/-- C1: committing a new snapshot (`saveCanvasState`, reached at stroke end,
clear, import, and applied generation result) discards every snapshot
strictly after the current index and appends the new snapshot; hence, from a
head position, `k` undos followed by one commit leave
`(length_before - k) + 1` snapshots, with the new snapshot last and the index
pointing at it. -/
theorem commit_truncates_forward_history (s : AppState) (k : Nat)
    (hinv : Invariant s.historyState)
    (hhead : s.historyState.index = (s.historyState.stack.length : Int) - 1)
    (hk : k < s.historyState.stack.length) :
    (saveCanvasState s).historyState.stack
      = s.historyState.stack.take (s.historyState.index.toNat + 1) ++ [s.canvas]
    ∧ (saveCanvasState (handleUndo^[k] s)).historyState.stack.length
        = (s.historyState.stack.length - k) + 1
    ∧ (saveCanvasState (handleUndo^[k] s)).historyState.stack.getLast?
        = some (handleUndo^[k] s).canvas
    ∧ (saveCanvasState (handleUndo^[k] s)).historyState.index
        = ((saveCanvasState (handleUndo^[k] s)).historyState.stack.length : Int) - 1 := by
  obtain ⟨hne, h0, hlt⟩ := hinv
  have hiter := handleUndo_iter s k (by omega) hlt
  obtain ⟨hstk, hidx⟩ := hiter
  have htoNat : (s.historyState.index + 1).toNat = s.historyState.index.toNat + 1 := by
    omega
  have hu : ((handleUndo^[k] s).historyState.index + 1).toNat
      = s.historyState.stack.length - k := by
    rw [hidx]; omega
  refine ⟨?_, ?_, ?_, ?_⟩
  · unfold saveCanvasState
    dsimp only
    rw [htoNat]
  · unfold saveCanvasState
    dsimp only
    rw [hu, hstk]
    simp [List.length_take]
  · unfold saveCanvasState
    dsimp only
    simp
  · unfold saveCanvasState
    dsimp only

/-- Witness for C1 at a concrete three-snapshot history with one undo. -/
theorem commit_truncates_forward_history_witness :
    (Invariant sampleState.historyState
      ∧ sampleState.historyState.index = (sampleState.historyState.stack.length : Int) - 1
      ∧ 1 < sampleState.historyState.stack.length)
    ∧ ((saveCanvasState sampleState).historyState.stack
        = sampleState.historyState.stack.take (sampleState.historyState.index.toNat + 1)
            ++ [sampleState.canvas]
      ∧ (saveCanvasState (handleUndo^[1] sampleState)).historyState.stack.length
          = (sampleState.historyState.stack.length - 1) + 1
      ∧ (saveCanvasState (handleUndo^[1] sampleState)).historyState.stack.getLast?
          = some (handleUndo^[1] sampleState).canvas
      ∧ (saveCanvasState (handleUndo^[1] sampleState)).historyState.index
          = ((saveCanvasState (handleUndo^[1] sampleState)).historyState.stack.length : Int)
              - 1) :=
  ⟨⟨by decide, by decide, by decide⟩,
   commit_truncates_forward_history sampleState 1 (by decide) (by decide) (by decide)⟩

/-- C2: the initialized history satisfies the invariant (non-empty stack,
`0 ≤ index < length`), and commit, undo and redo each preserve it. -/
theorem history_invariant_preserved :
    Invariant initState.historyState ∧
    ∀ s : AppState, Invariant s.historyState →
      Invariant (saveCanvasState s).historyState ∧
      Invariant (handleUndo s).historyState ∧
      Invariant (handleRedo s).historyState := by
  refine ⟨by decide, fun s hs => ⟨?_, ?_, ?_⟩⟩
  · obtain ⟨hne, h0, hlt⟩ := hs
    unfold saveCanvasState
    refine ⟨by simp, ?_, ?_⟩ <;>
      simp [List.length_take]
  · by_cases h : s.historyState.index ≤ 0
    · unfold handleUndo
      rw [if_pos h]
      exact hs
    · obtain ⟨hne, h0, hlt⟩ := hs
      rw [handleUndo_historyState s (by omega)]
      exact ⟨hne, by dsimp only; omega, by dsimp only; omega⟩
  · by_cases h : s.historyState.index ≥ (s.historyState.stack.length : Int) - 1
    · unfold handleRedo
      rw [if_pos h]
      exact hs
    · obtain ⟨hne, h0, hlt⟩ := hs
      rw [handleRedo_historyState s (by omega)]
      exact ⟨hne, by dsimp only; omega, by dsimp only; omega⟩

/-- Witness for C2 at a concrete two-snapshot history behind the head. -/
theorem history_invariant_preserved_witness :
    Invariant sampleStateMid.historyState ∧
    (Invariant (saveCanvasState sampleStateMid).historyState ∧
     Invariant (handleUndo sampleStateMid).historyState ∧
     Invariant (handleRedo sampleStateMid).historyState) :=
  ⟨by decide, history_invariant_preserved.2 sampleStateMid (by decide)⟩

/-- C3: undo decrements the index by exactly 1 and restores the raster to the
snapshot at the new index, and is a no-op at index 0; redo increments the
index by exactly 1 and restores the snapshot at the new index, and is a no-op
at the last position. -/
theorem undo_redo_step_or_noop (s : AppState) (hinv : Invariant s.historyState) :
    (s.historyState.index = 0 → handleUndo s = s)
    ∧ (0 < s.historyState.index →
        (handleUndo s).historyState.index = s.historyState.index - 1
        ∧ (handleUndo s).historyState.stack = s.historyState.stack
        ∧ s.historyState.stack.get? (s.historyState.index - 1).toNat
            = some ((handleUndo s).canvas))
    ∧ (s.historyState.index = (s.historyState.stack.length : Int) - 1 → handleRedo s = s)
    ∧ (s.historyState.index < (s.historyState.stack.length : Int) - 1 →
        (handleRedo s).historyState.index = s.historyState.index + 1
        ∧ (handleRedo s).historyState.stack = s.historyState.stack
        ∧ s.historyState.stack.get? (s.historyState.index + 1).toNat
            = some ((handleRedo s).canvas)) := by
  obtain ⟨hne, h0, hlt⟩ := hinv
  refine ⟨?_, ?_, ?_, ?_⟩
  · intro h
    unfold handleUndo
    rw [if_pos (by omega)]
  · intro h
    refine ⟨?_, ?_, handleUndo_canvas s h hlt⟩
    · rw [handleUndo_historyState s h]
    · rw [handleUndo_historyState s h]
  · intro h
    unfold handleRedo
    rw [if_pos (by omega)]
  · intro h
    refine ⟨?_, ?_, handleRedo_canvas s h0 h⟩
    · rw [handleRedo_historyState s h]
    · rw [handleRedo_historyState s h]

/-- Witness for C3 at a concrete three-snapshot history at the head. -/
theorem undo_redo_step_or_noop_witness :
    Invariant sampleState.historyState ∧
    ((sampleState.historyState.index = 0 → handleUndo sampleState = sampleState)
    ∧ (0 < sampleState.historyState.index →
        (handleUndo sampleState).historyState.index = sampleState.historyState.index - 1
        ∧ (handleUndo sampleState).historyState.stack = sampleState.historyState.stack
        ∧ sampleState.historyState.stack.get? (sampleState.historyState.index - 1).toNat
            = some ((handleUndo sampleState).canvas))
    ∧ (sampleState.historyState.index = (sampleState.historyState.stack.length : Int) - 1 →
        handleRedo sampleState = sampleState)
    ∧ (sampleState.historyState.index < (sampleState.historyState.stack.length : Int) - 1 →
        (handleRedo sampleState).historyState.index = sampleState.historyState.index + 1
        ∧ (handleRedo sampleState).historyState.stack = sampleState.historyState.stack
        ∧ sampleState.historyState.stack.get? (sampleState.historyState.index + 1).toNat
            = some ((handleRedo sampleState).canvas))) :=
  ⟨by decide, undo_redo_step_or_noop sampleState (by decide)⟩

/-- C10: undo and redo never change the snapshot stack — same length, same
entries — they move only the index. -/
theorem undo_redo_preserve_stack :
    ∀ s : AppState,
      (handleUndo s).historyState.stack = s.historyState.stack
      ∧ (handleRedo s).historyState.stack = s.historyState.stack :=
  fun s => ⟨handleUndo_stack s, handleRedo_stack s⟩

/-- C4 (code bug): mapping the displayed `(0,0)` corner of a MOUSE event does
not yield the raster corner `(0,0)`.  `offsetX` is `0` there, which is falsy,
so `offsetX || touches?.[0]?.clientX - rect.left` falls through to the touch
branch, and for a mouse event `touches` is `undefined`, giving
`undefined - left = NaN` — the code's own comment promises "accurate
coordinates".  Away from the zero edges the claimed scaling
`(x*W/w, y*H/h)` does hold (second conjunct), as it does for a touch input at
the corner (third conjunct); the last conjuncts record the value the claim
requires at the corner. -/
theorem getCoordinates_zero_corner_nan :
    getCoordinates ⟨some 0, some 0, none, none⟩ 960 540 480 270 0 0 = (none, none)
    ∧ getCoordinates ⟨some 240, some 135, none, none⟩ 960 540 480 270 0 0
        = (some 480, some 270)
    ∧ getCoordinates ⟨none, none, some 10, some 20⟩ 960 540 480 270 10 20
        = (some 0, some 0)
    ∧ (0 : ℚ) * (960 / 480) = 0 ∧ (0 : ℚ) * (540 / 270) = 0 := by
  refine ⟨?_, ?_, ?_, by norm_num, by norm_num⟩ <;>
    simp [getCoordinates, jsOr, jsSub, jsMul] <;> norm_num

/-- C7: `handleImageImport` scales by `r = min(Cw/Iw, Ch/Ih)` and centers at
`((Cw - Iw*r)/2, (Ch - Ih*r)/2)`; with matching aspect ratios both offsets are
zero and the drawn size is the full canvas; with a narrower image the
horizontal offset is positive and the vertical offset is zero. -/
theorem importPlacement_fit_center (Cw Ch Iw Ih : ℚ)
    (hCw : 0 < Cw) (hCh : 0 < Ch) (hIw : 0 < Iw) (hIh : 0 < Ih) :
    importPlacement Cw Ch Iw Ih
      = (min (Cw / Iw) (Ch / Ih),
         (Cw - Iw * min (Cw / Iw) (Ch / Ih)) / 2,
         (Ch - Ih * min (Cw / Iw) (Ch / Ih)) / 2)
    ∧ (Iw / Ih = Cw / Ch →
        (importPlacement Cw Ch Iw Ih).2.1 = 0
        ∧ (importPlacement Cw Ch Iw Ih).2.2 = 0
        ∧ Iw * (importPlacement Cw Ch Iw Ih).1 = Cw
        ∧ Ih * (importPlacement Cw Ch Iw Ih).1 = Ch)
    ∧ (Iw / Ih < Cw / Ch →
        0 < (importPlacement Cw Ch Iw Ih).2.1
        ∧ (importPlacement Cw Ch Iw Ih).2.2 = 0) := by
  refine ⟨rfl, ?_, ?_⟩
  · intro h
    have heq : Ch / Ih = Cw / Iw := by
      rw [div_eq_div_iff hIh.ne' hIw.ne']
      rw [div_eq_div_iff hIh.ne' hCh.ne'] at h
      linarith
    unfold importPlacement
    dsimp only
    rw [heq, min_self]
    refine ⟨?_, ?_, ?_, ?_⟩
    · rw [mul_comm, div_mul_cancel₀ _ hIw.ne']
      simp
    · rw [← heq, mul_comm, div_mul_cancel₀ _ hIh.ne']
      simp
    · rw [mul_comm, div_mul_cancel₀ _ hIw.ne']
    · rw [← heq, mul_comm, div_mul_cancel₀ _ hIh.ne']
  · intro h
    have hcross : Iw * Ch < Cw * Ih := by
      rw [div_lt_div_iff hIh hCh] at h
      linarith
    have hlt2 : Ch / Ih < Cw / Iw := by
      rw [div_lt_div_iff hIh hIw, mul_comm Ch Iw]
      exact hcross
    have hmin : min (Cw / Iw) (Ch / Ih) = Ch / Ih := min_eq_right hlt2.le
    unfold importPlacement
    dsimp only
    rw [hmin]
    constructor
    · have hx : Iw * (Ch / Ih) < Cw := by
        rw [← mul_div_assoc, div_lt_iff hIh]
        exact hcross
      exact div_pos (sub_pos.mpr hx) (by norm_num)
    · rw [mul_comm, div_mul_cancel₀ _ hIh.ne']
      simp

/-- Witness for C7 on the 960×540 canvas with a narrower 100×200 image. -/
theorem importPlacement_fit_center_witness :
    ((0:ℚ) < 960 ∧ (0:ℚ) < 540 ∧ (0:ℚ) < 100 ∧ (0:ℚ) < 200)
    ∧ (importPlacement 960 540 100 200
        = (min ((960:ℚ) / 100) (540 / 200),
           (960 - 100 * min ((960:ℚ) / 100) (540 / 200)) / 2,
           (540 - 200 * min ((960:ℚ) / 100) (540 / 200)) / 2)
      ∧ ((100:ℚ) / 200 = 960 / 540 →
          (importPlacement 960 540 100 200).2.1 = 0
          ∧ (importPlacement 960 540 100 200).2.2 = 0
          ∧ 100 * (importPlacement 960 540 100 200).1 = 960
          ∧ 200 * (importPlacement 960 540 100 200).1 = 540)
      ∧ ((100:ℚ) / 200 < 960 / 540 →
          0 < (importPlacement 960 540 100 200).2.1
          ∧ (importPlacement 960 540 100 200).2.2 = 0)) :=
  ⟨⟨by decide, by decide, by decide, by decide⟩,
   importPlacement_fit_center 960 540 100 200 (by decide) (by decide) (by decide) (by decide)⟩

/-- C5 counterexample: on the untouched canvas (the initial all-white
960×540 raster, no strokes), the request is NOT prompt-only — `drawingData`
is the base64 PNG payload of the white canvas, a non-empty (truthy) string,
so the two-part image+text request is built. -/
theorem untouched_canvas_request_has_image_part :
    hasImagePart (buildContents "draw a red circle" (submitDrawingData initState)) = true
    ∧ buildContents "draw a red circle" (submitDrawingData initState)
        ≠ [⟨"USER", [⟨some "draw a red circle", none⟩]⟩] := by
  exact ⟨by decide, by decide⟩

/-- C5 (amended): for every raster — the untouched all-white background
included — the serialized `drawingData` is non-empty (every PNG payload
starts with the base64 of the PNG signature), so `handleSubmit` always builds
the two-part request: the image part followed by the prompt with the
style-preservation suffix.  The prompt-only branch would require an empty
payload, which the encoder never produces. -/
theorem buildContents_always_includes_image (p : String) (r : Raster) :
    buildContents p (drawingDataOf r)
      = [⟨"USER", [⟨none, some (drawingDataOf r)⟩]⟩,
         ⟨"USER", [⟨some (p ++ ". Keep the same minimal line drawing style."), none⟩]⟩]
    ∧ hasImagePart (buildContents p (drawingDataOf r)) = true := by
  have hne : (drawingDataOf r != "") = true := by
    cases r <;> rfl
  have h1 : buildContents p (drawingDataOf r)
      = [⟨"USER", [⟨none, some (drawingDataOf r)⟩]⟩,
         ⟨"USER", [⟨some (p ++ ". Keep the same minimal line drawing style."), none⟩]⟩] := by
    unfold buildContents
    rw [if_pos hne]
  refine ⟨h1, ?_⟩
  rw [h1]
  simp [hasImagePart, isTruthyStr, hne]

/-! ### Helper lemmas for the response loop -/

theorem str_append_ne_empty (a b : String) (h : a ≠ "") : a ++ b ≠ "" := by
  intro hab
  apply h
  have hlen := congrArg String.length hab
  rw [String.length_append] at hlen
  have hz : ("" : String).length = 0 := rfl
  rw [hz] at hlen
  have ha : a.length = 0 := by omega
  have had : a.data = [] := List.eq_nil_of_length_eq_zero ha
  exact String.ext (by rw [had])

theorem processParts_imageData_aux (parts : List Part) :
    ∀ (m : String) (acc : Option String),
      (parts.foldl processPart ⟨m, acc⟩).imageData = lastImg parts acc := by
  induction parts with
  | nil => intro m acc; rfl
  | cons p ps ih =>
      intro m acc
      rw [List.foldl_cons]
      unfold processPart lastImg
      by_cases h1 : isTruthyStr p.text = true
      · rw [if_pos h1, if_pos h1]
        exact ih _ _
      · rw [if_neg h1, if_neg h1]
        by_cases h2 : p.inlineData.isSome = true
        · rw [if_pos h2, if_pos h2]
          exact ih _ _
        · rw [if_neg h2, if_neg h2]
          exact ih _ _

theorem processParts_imageData (parts : List Part) :
    (processParts parts).imageData = lastImg parts none :=
  processParts_imageData_aux parts "" none

/-- C6 counterexample: the response loop overwrites `data.imageData` on every
image part (`data.imageData = imageData` inside the `for` loop), so with two
image parts the applied background is the LAST one, not the first selected by
the spec. -/
theorem applyResult_selects_last_image_not_first :
    (processParts [⟨none, some "A"⟩, ⟨none, some "B"⟩]).imageData = some "B"
    ∧ specFirstImage [⟨none, some "A"⟩, ⟨none, some "B"⟩] = some "A"
    ∧ (generatedImageEffect (handleSubmitResponse initState
          (GenResult.ok [⟨none, some "A"⟩, ⟨none, some "B"⟩]))).backgroundImage
        = some ("data:image/png;base64," ++ "B")
    ∧ some ("data:image/png;base64," ++ "B") ≠ some ("data:image/png;base64," ++ "A") := by
  exact ⟨by decide, by decide, by decide, by decide⟩

/-- C6 (amended): the loop retains the `data` of the LAST part with falsy
`text` and a present `inlineData` object — not the first image part — and the
result is applied only when that retained datum is a non-empty (truthy)
string.  Under that condition, applying the result sets the retained image
(as a data URL) as the background image, redraws the canvas from it, and
commits exactly one new snapshot: from a head position, History length
increases by 1, the new snapshot is last, and the index points at it.  Text
parts only set the retained `message` and do not affect the raster: the
applied state depends only on the selected image datum.  (When the last
retained datum is the empty string — e.g. a trailing image part with empty
`data` — `if (data.success && data.imageData)` is falsy and nothing is
applied, which is why `img ≠ ""` is a hypothesis here.) -/
theorem applyResult_last_image_commits_snapshot (s : AppState) (parts : List Part)
    (img : String)
    (hinv : Invariant s.historyState)
    (hhead : s.historyState.index = (s.historyState.stack.length : Int) - 1)
    (himg : lastImg parts none = some img)
    (himg_ne : img ≠ "") :
    (generatedImageEffect (handleSubmitResponse s (GenResult.ok parts))).backgroundImage
        = some ("data:image/png;base64," ++ img)
    ∧ (generatedImageEffect (handleSubmitResponse s (GenResult.ok parts))).canvas
        = Raster.generated ("data:image/png;base64," ++ img)
    ∧ (generatedImageEffect
          (handleSubmitResponse s (GenResult.ok parts))).historyState.stack.length
        = s.historyState.stack.length + 1
    ∧ (generatedImageEffect
          (handleSubmitResponse s (GenResult.ok parts))).historyState.stack.getLast?
        = some (Raster.generated ("data:image/png;base64," ++ img))
    ∧ (generatedImageEffect (handleSubmitResponse s (GenResult.ok parts))).historyState.index
        = ((generatedImageEffect
              (handleSubmitResponse s (GenResult.ok parts))).historyState.stack.length : Int)
            - 1 := by
  obtain ⟨hne, h0, hlt⟩ := hinv
  have hid : (processParts parts).imageData = some img := by
    rw [processParts_imageData]; exact himg
  have hT : isTruthyStr (processParts parts).imageData = true := by
    rw [hid]
    simp [isTruthyStr, himg_ne]
  have hresp : handleSubmitResponse s (GenResult.ok parts)
      = { s with
            generatedImage := some ("data:image/png;base64," ++ img)
            isLoading := false } := by
    unfold handleSubmitResponse
    dsimp only
    rw [if_pos hT, hid]
    rfl
  have hurl : ("data:image/png;base64," ++ img) ≠ "" :=
    str_append_ne_empty _ _ (by decide)
  rw [hresp]
  unfold generatedImageEffect
  dsimp only
  rw [if_neg hurl]
  unfold drawImageToCanvas saveCanvasState
  dsimp only
  have htake : (s.historyState.index + 1).toNat = s.historyState.stack.length := by
    omega
  rw [htake, List.take_length]
  refine ⟨rfl, rfl, by simp, by simp, rfl⟩

/-- Witness for C6 at the initial state and a text part followed by an image
part. -/
theorem applyResult_last_image_commits_snapshot_witness :
    (Invariant initState.historyState
      ∧ initState.historyState.index = (initState.historyState.stack.length : Int) - 1
      ∧ lastImg [⟨some "added a hat", none⟩, ⟨none, some "IMG"⟩] none = some "IMG"
      ∧ "IMG" ≠ "")
    ∧ ((generatedImageEffect (handleSubmitResponse initState
          (GenResult.ok [⟨some "added a hat", none⟩, ⟨none, some "IMG"⟩]))).backgroundImage
        = some ("data:image/png;base64," ++ "IMG")
      ∧ (generatedImageEffect (handleSubmitResponse initState
            (GenResult.ok [⟨some "added a hat", none⟩, ⟨none, some "IMG"⟩]))).canvas
          = Raster.generated ("data:image/png;base64," ++ "IMG")
      ∧ (generatedImageEffect (handleSubmitResponse initState
            (GenResult.ok [⟨some "added a hat", none⟩,
              ⟨none, some "IMG"⟩]))).historyState.stack.length
          = initState.historyState.stack.length + 1
      ∧ (generatedImageEffect (handleSubmitResponse initState
            (GenResult.ok [⟨some "added a hat", none⟩,
              ⟨none, some "IMG"⟩]))).historyState.stack.getLast?
          = some (Raster.generated ("data:image/png;base64," ++ "IMG"))
      ∧ (generatedImageEffect (handleSubmitResponse initState
            (GenResult.ok [⟨some "added a hat", none⟩, ⟨none, some "IMG"⟩]))).historyState.index
          = ((generatedImageEffect (handleSubmitResponse initState
                (GenResult.ok [⟨some "added a hat", none⟩,
                  ⟨none, some "IMG"⟩]))).historyState.stack.length : Int) - 1) :=
  ⟨⟨by decide, by decide, by decide, by decide⟩,
   applyResult_last_image_commits_snapshot initState
     [⟨some "added a hat", none⟩, ⟨none, some "IMG"⟩] "IMG"
     (by decide) (by decide) (by decide) (by decide)⟩

/-- C8: a thrown failure of the external call (network error, rejection,
malformed response shape) is caught by the `try/catch` in `handleSubmit`: the
raster, the background image and the whole History are unchanged, the error
message is recorded and the error modal shown (from which `ErrorDisplay`
derives the classification), the busy flag is cleared, and no raw fault
escapes — the embedded handler is a total function. -/
theorem generation_failure_preserves_state (s : AppState) (m : String) :
    (handleSubmitResponse s (GenResult.err m)).historyState = s.historyState
    ∧ (handleSubmitResponse s (GenResult.err m)).canvas = s.canvas
    ∧ (handleSubmitResponse s (GenResult.err m)).backgroundImage = s.backgroundImage
    ∧ (handleSubmitResponse s (GenResult.err m)).generatedImage = s.generatedImage
    ∧ (handleSubmitResponse s (GenResult.err m)).showErrorModal = true
    ∧ (handleSubmitResponse s (GenResult.err m)).errorMessage = m
    ∧ (handleSubmitResponse s (GenResult.err m)).isLoading = false
    ∧ classifyError (handleSubmitResponse s (GenResult.err m)).errorMessage
        = classifyError m := by
  unfold handleSubmitResponse
  exact ⟨rfl, rfl, rfl, rfl, rfl, rfl, rfl, rfl⟩

/-- C9: with no API credential configured (`apiKey` is the empty string), the
submit gate shows the key modal and stops: the external call is never reached
(`false` flag), and the raster and History are unchanged. -/
theorem missing_credential_refuses_submit (s : AppState) (h : s.apiKey = "") :
    (handleSubmitGate s).2 = false
    ∧ (handleSubmitGate s).1.historyState = s.historyState
    ∧ (handleSubmitGate s).1.canvas = s.canvas
    ∧ (handleSubmitGate s).1.backgroundImage = s.backgroundImage
    ∧ (handleSubmitGate s).1.showApiKeyModal = true
    ∧ (handleSubmitGate s).1.isLoading = s.isLoading := by
  unfold handleSubmitGate
  rw [if_pos h]
  exact ⟨rfl, rfl, rfl, rfl, rfl, rfl⟩

/-- Witness for C9 at the freshly initialized state, which has no API key. -/
theorem missing_credential_refuses_submit_witness :
    initState.apiKey = ""
    ∧ ((handleSubmitGate initState).2 = false
      ∧ (handleSubmitGate initState).1.historyState = initState.historyState
      ∧ (handleSubmitGate initState).1.canvas = initState.canvas
      ∧ (handleSubmitGate initState).1.backgroundImage = initState.backgroundImage
      ∧ (handleSubmitGate initState).1.showApiKeyModal = true
      ∧ (handleSubmitGate initState).1.isLoading = initState.isLoading) :=
  ⟨rfl, missing_credential_refuses_submit initState rfl⟩

end CoDrawing
